import Mathlib

/-!
Shallow embedding of the thermal sizing engine of `src/app.py`
(heat-exchanger calculator): duty / outlet inference (lines 41-56),
outlet resolution and temperature validation (lines 58-71), governing
duty, LMTD and area calculation (lines 73-104), and the temperature
profile sampling (lines 106-124).

Temperatures, flow rates and heats are modelled as real numbers.
Python's float division raises `ZeroDivisionError` on a zero
denominator; that fallibility is modelled by `pydiv` returning
`Except Crash ℝ`, and an uncaught exception surfaces as `Except.error`
at the top level of `runEngine`.  A float `NaN` stored in `LMTD` or `A`
is modelled as `Option.none`.  User-facing diagnostics (`st.warning` /
`st.error` calls) are collected in a list of `Msg` values, and the
metrics/plot block (lines 102-124), which only runs when validation
passed, is modelled by the `displayed : Option Metrics` field.
-/

namespace SCHEM

/-- Flow configuration selectbox (line 37). -/
inductive FlowType where
  | counter
  | parallel
deriving DecidableEq

/-- The raw numeric inputs supplied by the widgets (lines 17-37).
`T_hot_out`/`T_cold_out` are `none` when the corresponding checkbox is
unchecked, exactly as the Python variables are `None` then. -/
structure Inputs where
  m_dot_hot : ℝ
  Cp_hot : ℝ
  T_hot_in : ℝ
  T_hot_out : Option ℝ
  m_dot_cold : ℝ
  Cp_cold : ℝ
  T_cold_in : ℝ
  T_cold_out : Option ℝ
  U : ℝ
  flow_type : FlowType

/-- An uncaught Python exception. -/
inductive Crash where
  | zeroDivision
deriving DecidableEq

/-- The user-facing diagnostics emitted by `st.warning` / `st.error`. -/
inductive Msg where
  | insufficientData
  | invalidHotOut
  | invalidColdOut
  | invalidDeltaT
  | lmtdFailure
deriving DecidableEq

/-- The values rendered by the `st.metric` calls and the profile plot
(lines 102-124).  `LMTD`/`A` are `none` when the float is `NaN`. -/
structure Metrics where
  Q : ℝ
  LMTD : Option ℝ
  A : Option ℝ
  profile : List (ℝ × ℝ × ℝ)

/-- Everything one invocation shows to the user. `displayed = none`
means the metric/plot block (lines 102-124) was never reached. -/
structure Output where
  messages : List Msg
  displayed : Option Metrics

open Classical

/-- Python float division: raises `ZeroDivisionError` when the
denominator is zero. -/
noncomputable def pydiv (a b : ℝ) : Except Crash ℝ :=
  if b = 0 then Except.error Crash.zeroDivision else Except.ok (a / b)

/-- Result of the duty/inference block, lines 41-62: either both
outlets unknown (`Q` stays `None`, warning shown), or a duty together
with both resolved outlet temperatures. -/
inductive InferOut where
  | insufficient
  | resolved (Q T_hot_out T_cold_out : ℝ)

/-- Lines 41-62: compute the duty `Q` and resolve the outlet
temperatures.  When exactly one outlet is unknown the missing one is
inferred from the energy balance (lines 49-54); the assignments at
lines 59-62 merge `T_hot_out_calc` / `T_cold_out_calc` into the
resolved outlets. -/
noncomputable def inference (inp : Inputs) : Except Crash InferOut :=
  match inp.T_hot_out, inp.T_cold_out with
  | some T_hot_out, some T_cold_out =>
      let Q_hot := inp.m_dot_hot * inp.Cp_hot * (inp.T_hot_in - T_hot_out) * 1000
      let Q_cold := inp.m_dot_cold * inp.Cp_cold * (T_cold_out - inp.T_cold_in) * 1000
      Except.ok (InferOut.resolved (min Q_hot Q_cold) T_hot_out T_cold_out)
  | some T_hot_out, none =>
      let Q := inp.m_dot_hot * inp.Cp_hot * (inp.T_hot_in - T_hot_out) * 1000
      match pydiv Q (inp.m_dot_cold * inp.Cp_cold * 1000) with
      | Except.error e => Except.error e
      | Except.ok d => Except.ok (InferOut.resolved Q T_hot_out (inp.T_cold_in + d))
  | none, some T_cold_out =>
      let Q := inp.m_dot_cold * inp.Cp_cold * (T_cold_out - inp.T_cold_in) * 1000
      match pydiv Q (inp.m_dot_hot * inp.Cp_hot * 1000) with
      | Except.error e => Except.error e
      | Except.ok d => Except.ok (InferOut.resolved Q (inp.T_hot_in - d) T_cold_out)
  | none, none => Except.ok InferOut.insufficient

/-- Lines 78-83: the two driving temperature differences, by flow
arrangement. -/
noncomputable def deltas (flow_type : FlowType)
    (T_hot_in T_hot_out T_cold_in T_cold_out : ℝ) : ℝ × ℝ :=
  match flow_type with
  | FlowType.counter => (T_hot_in - T_cold_out, T_hot_out - T_cold_in)
  | FlowType.parallel => (T_hot_in - T_cold_in, T_hot_out - T_cold_out)

/-- Lines 85-95: the LMTD computation.  The first branch guards
non-positive differences (`LMTD = nan`, error shown); with equal
differences the removable singularity is short-circuited; otherwise the
logarithmic-mean formula runs inside `try`: `math.log` raises on a
non-positive ratio and the outer division raises when the logarithm is
zero, and the bare `except` turns either into `nan` plus an error
message.  Those two exception conditions are the final guard. -/
noncomputable def lmtdStage (delta_T1 delta_T2 : ℝ) : Option ℝ × List Msg :=
  if delta_T1 ≤ 0 ∨ delta_T2 ≤ 0 then
    (none, [Msg.invalidDeltaT])
  else if delta_T1 = delta_T2 then
    (some delta_T1, [])
  else if 0 < delta_T1 / delta_T2 ∧ Real.log (delta_T1 / delta_T2) ≠ 0 then
    (some ((delta_T1 - delta_T2) / Real.log (delta_T1 / delta_T2)), [])
  else
    (none, [Msg.lmtdFailure])

/-- Lines 97-100: the area.  `A = Q / (U * LMTD)` when `U > 0` and the
LMTD is not `NaN`, else `A = nan`; the division itself is a Python
float division and so can raise. -/
noncomputable def areaStage (U Q : ℝ) (LMTD : Option ℝ) : Except Crash (Option ℝ) :=
  match LMTD with
  | some l =>
      if 0 < U then
        match pydiv Q (U * l) with
        | Except.error e => Except.error e
        | Except.ok a => Except.ok (some a)
      else Except.ok none
  | none => Except.ok none

/-- Lines 106-114: 100 evenly spaced normalized positions
(`np.linspace(0, 1, 100)`, so `x i = i / 99`) with the linear hot and
cold temperature interpolations of lines 110-114. -/
noncomputable def profileStage (flow_type : FlowType)
    (T_hot_in T_hot_out T_cold_in T_cold_out : ℝ) : List (ℝ × ℝ × ℝ) :=
  (List.range 100).map fun (i : ℕ) =>
    let x : ℝ := (i : ℝ) / 99
    (x, T_hot_in - (T_hot_in - T_hot_out) * x,
      match flow_type with
      | FlowType.counter => T_cold_out - (T_cold_out - T_cold_in) * (1 - x)
      | FlowType.parallel => T_cold_in + (T_cold_out - T_cold_in) * x)

/-- Lines 64-124: temperature validation (`valid_temp`), then — only
when valid — the governing-duty recomputation (lines 74-76), the LMTD
and area stages, and the metric/plot block. -/
noncomputable def afterDuty (inp : Inputs) (T_hot_out T_cold_out : ℝ) :
    Except Crash Output :=
  let msgs_hot : List Msg :=
    if T_hot_out ≥ inp.T_hot_in then [Msg.invalidHotOut] else []
  let msgs_cold : List Msg :=
    if T_cold_out ≤ inp.T_cold_in then [Msg.invalidColdOut] else []
  if T_hot_out ≥ inp.T_hot_in ∨ T_cold_out ≤ inp.T_cold_in then
    Except.ok { messages := msgs_hot ++ msgs_cold, displayed := none }
  else
    let Q_hot := inp.m_dot_hot * inp.Cp_hot * (inp.T_hot_in - T_hot_out) * 1000
    let Q_cold := inp.m_dot_cold * inp.Cp_cold * (T_cold_out - inp.T_cold_in) * 1000
    let Q := min Q_hot Q_cold
    let d := deltas inp.flow_type inp.T_hot_in T_hot_out inp.T_cold_in T_cold_out
    let lm := lmtdStage d.1 d.2
    match areaStage inp.U Q lm.1 with
    | Except.error e => Except.error e
    | Except.ok A =>
        let mtr : Metrics :=
          { Q := Q, LMTD := lm.1, A := A,
            profile := profileStage inp.flow_type inp.T_hot_in T_hot_out
              inp.T_cold_in T_cold_out }
        Except.ok { messages := lm.2, displayed := some mtr }

/-- One full invocation of the engine, lines 41-124. -/
noncomputable def runEngine (inp : Inputs) : Except Crash Output :=
  match inference inp with
  | Except.error e => Except.error e
  | Except.ok InferOut.insufficient =>
      Except.ok { messages := [Msg.insufficientData], displayed := none }
  | Except.ok (InferOut.resolved _ T_hot_out T_cold_out) =>
      afterDuty inp T_hot_out T_cold_out

/-- The area value in the cases where the division at line 98 cannot
raise: a total description of `areaStage`. -/
noncomputable def areaVal (U Q : ℝ) (LMTD : Option ℝ) : Option ℝ :=
  match LMTD with
  | some l => if 0 < U then some (Q / (U * l)) else none
  | none => none

lemma lmtdStage_invalid {d1 d2 : ℝ} (h : d1 ≤ 0 ∨ d2 ≤ 0) :
    lmtdStage d1 d2 = (none, [Msg.invalidDeltaT]) := by
  unfold lmtdStage
  rw [if_pos h]

lemma lmtdStage_eq {d1 d2 : ℝ} (h1 : 0 < d1) (h2 : 0 < d2) (heq : d1 = d2) :
    lmtdStage d1 d2 = (some d1, []) := by
  unfold lmtdStage
  rw [if_neg (by push_neg; exact ⟨h1, h2⟩), if_pos heq]

lemma lmtdStage_ne {d1 d2 : ℝ} (h1 : 0 < d1) (h2 : 0 < d2) (hne : d1 ≠ d2) :
    lmtdStage d1 d2 = (some ((d1 - d2) / Real.log (d1 / d2)), []) := by
  have hr : 0 < d1 / d2 := div_pos h1 h2
  have hlog : Real.log (d1 / d2) ≠ 0 := by
    intro h
    rcases Real.log_eq_zero.mp h with h0 | h0 | h0
    · exact hr.ne' h0
    · exact hne ((div_eq_one_iff_eq h2.ne').mp h0)
    · linarith
  unfold lmtdStage
  rw [if_neg (by push_neg; exact ⟨h1, h2⟩), if_neg hne, if_pos ⟨hr, hlog⟩]

/-- Whenever line 85-95 produces a non-`NaN` LMTD, that LMTD is
strictly positive. -/
lemma lmtd_pos {d1 d2 l : ℝ} (h : (lmtdStage d1 d2).1 = some l) : 0 < l := by
  unfold lmtdStage at h
  split_ifs at h with hc1 hc2 hc3
  · push_neg at hc1
    have hd : d1 = l := by simpa using h
    linarith [hc1.1]
  · push_neg at hc1
    have hl : (d1 - d2) / Real.log (d1 / d2) = l := by simpa using h
    rcases lt_or_gt_of_ne hc2 with hlt | hgt
    · have hr0 : 0 < d1 / d2 := div_pos hc1.1 hc1.2
      have hr1 : d1 / d2 < 1 := (div_lt_one hc1.2).mpr hlt
      have hp := div_pos_of_neg_of_neg (show d1 - d2 < 0 by linarith)
        (Real.log_neg hr0 hr1)
      linarith
    · have hr1 : 1 < d1 / d2 := (one_lt_div hc1.2).mpr hgt
      have hp := div_pos (show 0 < d1 - d2 by linarith) (Real.log_pos hr1)
      linarith

/-- The logarithmic mean of `0 < b < a` lies strictly between `b` and
`a`. -/
lemma logMean_between {a b : ℝ} (hb : 0 < b) (hab : b < a) :
    b < (a - b) / Real.log (a / b) ∧ (a - b) / Real.log (a / b) < a := by
  have ha : 0 < a := hb.trans hab
  have hr : 1 < a / b := (one_lt_div hb).mpr hab
  have hlr : 0 < Real.log (a / b) := Real.log_pos hr
  constructor
  · rw [lt_div_iff₀ hlr]
    have hlt : Real.log (a / b) < a / b - 1 :=
      Real.log_lt_sub_one_of_pos (by positivity) (ne_of_gt hr)
    have hmul : b * Real.log (a / b) < b * (a / b - 1) :=
      (mul_lt_mul_left hb).mpr hlt
    have hid : b * (a / b - 1) = a - b := by field_simp
    linarith
  · rw [div_lt_iff₀ hlr]
    have hba : Real.log (b / a) < b / a - 1 :=
      Real.log_lt_sub_one_of_pos (by positivity)
        (fun h => (ne_of_lt hab) ((div_eq_one_iff_eq ha.ne').mp h))
    have hinv : Real.log (b / a) = - Real.log (a / b) := by
      rw [show b / a = (a / b)⁻¹ by field_simp, Real.log_inv]
    rw [hinv] at hba
    have h5 : 1 - b / a < Real.log (a / b) := by linarith
    have h6 : a * (1 - b / a) < a * Real.log (a / b) := (mul_lt_mul_left ha).mpr h5
    have hid : a * (1 - b / a) = a - b := by field_simp
    linarith

lemma areaStage_eq {U Q : ℝ} {L : Option ℝ} (h : ∀ l ∈ L, 0 < l) :
    areaStage U Q L = Except.ok (areaVal U Q L) := by
  cases L with
  | none => rfl
  | some l =>
      by_cases hU : 0 < U
      · have hl : 0 < l := h l rfl
        have hne : U * l ≠ 0 := (mul_pos hU hl).ne'
        simp [areaStage, areaVal, pydiv, hU, hne]
      · simp [areaStage, areaVal, hU]

/-- Lines 64-71 with `valid_temp = False`: only the two temperature
diagnostics are emitted, nothing is displayed. -/
lemma afterDuty_invalid {inp : Inputs} {tho tco : ℝ}
    (h : tho ≥ inp.T_hot_in ∨ tco ≤ inp.T_cold_in) :
    afterDuty inp tho tco = Except.ok
      { messages := (if tho ≥ inp.T_hot_in then [Msg.invalidHotOut] else []) ++
          (if tco ≤ inp.T_cold_in then [Msg.invalidColdOut] else []),
        displayed := none } := by
  simp only [afterDuty]
  rw [if_pos h]

/-- Lines 73-124 with `valid_temp = True`: the whole displayed record,
in terms of the stage functions. -/
lemma afterDuty_valid {inp : Inputs} {tho tco : ℝ}
    (h1 : ¬ tho ≥ inp.T_hot_in) (h2 : ¬ tco ≤ inp.T_cold_in) :
    afterDuty inp tho tco = Except.ok
      { messages := (lmtdStage
          (deltas inp.flow_type inp.T_hot_in tho inp.T_cold_in tco).1
          (deltas inp.flow_type inp.T_hot_in tho inp.T_cold_in tco).2).2,
        displayed := some
          { Q := min (inp.m_dot_hot * inp.Cp_hot * (inp.T_hot_in - tho) * 1000)
                (inp.m_dot_cold * inp.Cp_cold * (tco - inp.T_cold_in) * 1000),
            LMTD := (lmtdStage
              (deltas inp.flow_type inp.T_hot_in tho inp.T_cold_in tco).1
              (deltas inp.flow_type inp.T_hot_in tho inp.T_cold_in tco).2).1,
            A := areaVal inp.U
              (min (inp.m_dot_hot * inp.Cp_hot * (inp.T_hot_in - tho) * 1000)
                (inp.m_dot_cold * inp.Cp_cold * (tco - inp.T_cold_in) * 1000))
              (lmtdStage
                (deltas inp.flow_type inp.T_hot_in tho inp.T_cold_in tco).1
                (deltas inp.flow_type inp.T_hot_in tho inp.T_cold_in tco).2).1,
            profile := profileStage inp.flow_type inp.T_hot_in tho
              inp.T_cold_in tco } } := by
  have hcond : ¬ (tho ≥ inp.T_hot_in ∨ tco ≤ inp.T_cold_in) := not_or.mpr ⟨h1, h2⟩
  have hpos : ∀ l ∈ (lmtdStage
      (deltas inp.flow_type inp.T_hot_in tho inp.T_cold_in tco).1
      (deltas inp.flow_type inp.T_hot_in tho inp.T_cold_in tco).2).1, 0 < l :=
    fun _ hl => lmtd_pos hl
  simp only [afterDuty]
  rw [if_neg hcond, areaStage_eq hpos]

/-- Neither InvalidTemperature diagnostic can come out of the LMTD
stage. -/
lemma lmtd_msgs_no_temp {d1 d2 : ℝ} :
    Msg.invalidHotOut ∉ (lmtdStage d1 d2).2 ∧
    Msg.invalidColdOut ∉ (lmtdStage d1 d2).2 := by
  unfold lmtdStage
  split_ifs <;> simp

/-- Scenario A of the spec: counter-flow, both outlets known. -/
noncomputable def inpA : Inputs :=
  { m_dot_hot := 1, Cp_hot := 4.18, T_hot_in := 80, T_hot_out := some 50,
    m_dot_cold := 1, Cp_cold := 4.18, T_cold_in := 20, T_cold_out := some 45,
    U := 500, flow_type := FlowType.counter }

/-- Scenario B-like input: hot side known, cold outlet unknown. -/
noncomputable def inpHotKnown : Inputs :=
  { m_dot_hot := 1, Cp_hot := 4.18, T_hot_in := 80, T_hot_out := some 50,
    m_dot_cold := 1, Cp_cold := 4.18, T_cold_in := 20, T_cold_out := none,
    U := 500, flow_type := FlowType.counter }

/-- Claim C1: on a validated input whose two driving temperature
differences `ΔT1, ΔT2` (determined from the resolved temperatures by
the flow arrangement via `deltas`) are both positive, the displayed
LMTD equals `ΔT1` when `ΔT1 = ΔT2` exactly (no `NaN` from a `0/0`
logarithm), and equals `(ΔT1 - ΔT2) / ln (ΔT1 / ΔT2)` when
`ΔT1 ≠ ΔT2`. -/
theorem lmtd_returned_formula (inp : Inputs) (tho tco d1 d2 : ℝ)
    (hd : deltas inp.flow_type inp.T_hot_in tho inp.T_cold_in tco = (d1, d2))
    (hv1 : ¬ tho ≥ inp.T_hot_in) (hv2 : ¬ tco ≤ inp.T_cold_in)
    (h1 : 0 < d1) (h2 : 0 < d2) :
    ∃ out mtr, afterDuty inp tho tco = Except.ok out ∧
      out.displayed = some mtr ∧
      (d1 = d2 → mtr.LMTD = some d1) ∧
      (d1 ≠ d2 → mtr.LMTD = some ((d1 - d2) / Real.log (d1 / d2))) := by
  rw [afterDuty_valid hv1 hv2]
  refine ⟨_, _, rfl, rfl, ?_, ?_⟩
  · intro heq
    simp [hd, lmtdStage_eq h1 h2 heq]
  · intro hne
    simp [hd, lmtdStage_ne h1 h2 hne]

/-- Witness for C1 at Scenario A: `ΔT1 = 35`, `ΔT2 = 30`. -/
theorem lmtd_returned_formula_witness :
    deltas inpA.flow_type inpA.T_hot_in 50 inpA.T_cold_in 45 = (35, 30) ∧
    ¬ (50:ℝ) ≥ inpA.T_hot_in ∧ ¬ (45:ℝ) ≤ inpA.T_cold_in ∧
    (0:ℝ) < 35 ∧ (0:ℝ) < 30 ∧
    (∃ out mtr, afterDuty inpA 50 45 = Except.ok out ∧
      out.displayed = some mtr ∧
      ((35:ℝ) = 30 → mtr.LMTD = some 35) ∧
      ((35:ℝ) ≠ 30 → mtr.LMTD = some (((35:ℝ) - 30) / Real.log (35 / 30)))) :=
  ⟨by norm_num [deltas, inpA], by norm_num [inpA], by norm_num [inpA],
   by norm_num, by norm_num,
   lmtd_returned_formula inpA 50 45 35 30 (by norm_num [deltas, inpA])
     (by norm_num [inpA]) (by norm_num [inpA]) (by norm_num) (by norm_num)⟩

/-- Claim C2: whenever both outlet temperatures are resolved and pass
validation, the displayed heat duty is the lesser in magnitude of the
two independently computed stream duties,
`min |m_hot·Cp_hot·(Thi - Tho)·1000| |m_cold·Cp_cold·(Tco - Tci)·1000|`
(the nonnegativity hypotheses on flow rate and specific heat are the
`min_value=0.0` widget bounds). -/
theorem duty_governing (inp : Inputs) (tho tco : ℝ)
    (hmh : 0 ≤ inp.m_dot_hot) (hch : 0 ≤ inp.Cp_hot)
    (hmc : 0 ≤ inp.m_dot_cold) (hcc : 0 ≤ inp.Cp_cold)
    (hv1 : ¬ tho ≥ inp.T_hot_in) (hv2 : ¬ tco ≤ inp.T_cold_in) :
    ∃ out mtr, afterDuty inp tho tco = Except.ok out ∧
      out.displayed = some mtr ∧
      mtr.Q = min |inp.m_dot_hot * inp.Cp_hot * (inp.T_hot_in - tho) * 1000|
        |inp.m_dot_cold * inp.Cp_cold * (tco - inp.T_cold_in) * 1000| := by
  rw [afterDuty_valid hv1 hv2]
  refine ⟨_, _, rfl, rfl, ?_⟩
  push_neg at hv1 hv2
  have hq1 : 0 ≤ inp.m_dot_hot * inp.Cp_hot * (inp.T_hot_in - tho) * 1000 :=
    mul_nonneg (mul_nonneg (mul_nonneg hmh hch) (by linarith)) (by norm_num)
  have hq2 : 0 ≤ inp.m_dot_cold * inp.Cp_cold * (tco - inp.T_cold_in) * 1000 :=
    mul_nonneg (mul_nonneg (mul_nonneg hmc hcc) (by linarith)) (by norm_num)
  simp [abs_of_nonneg hq1, abs_of_nonneg hq2]

/-- Witness for C2 at Scenario A. -/
theorem duty_governing_witness :
    (0:ℝ) ≤ inpA.m_dot_hot ∧ (0:ℝ) ≤ inpA.Cp_hot ∧
    (0:ℝ) ≤ inpA.m_dot_cold ∧ (0:ℝ) ≤ inpA.Cp_cold ∧
    ¬ (50:ℝ) ≥ inpA.T_hot_in ∧ ¬ (45:ℝ) ≤ inpA.T_cold_in ∧
    (∃ out mtr, afterDuty inpA 50 45 = Except.ok out ∧
      out.displayed = some mtr ∧
      mtr.Q = min |inpA.m_dot_hot * inpA.Cp_hot * (inpA.T_hot_in - 50) * 1000|
        |inpA.m_dot_cold * inpA.Cp_cold * (45 - inpA.T_cold_in) * 1000|) :=
  ⟨by norm_num [inpA], by norm_num [inpA], by norm_num [inpA],
   by norm_num [inpA], by norm_num [inpA], by norm_num [inpA],
   duty_governing inpA 50 45 (by norm_num [inpA]) (by norm_num [inpA])
     (by norm_num [inpA]) (by norm_num [inpA]) (by norm_num [inpA])
     (by norm_num [inpA])⟩

/-- Claim C3: when exactly one outlet temperature is unknown, the duty
is computed from the fully-known side and the missing outlet is
inferred by the energy balance: cold outlet `Tci + Q/(m_cold·Cp_cold·1000)`
when only the hot outlet is known, hot outlet
`Thi - Q/(m_hot·Cp_hot·1000)` when only the cold outlet is known. -/
theorem inference_energy_balance (inp : Inputs) :
    (∀ tho : ℝ, inp.T_hot_out = some tho → inp.T_cold_out = none →
      inp.m_dot_cold * inp.Cp_cold * 1000 ≠ 0 →
      inference inp = Except.ok (InferOut.resolved
        (inp.m_dot_hot * inp.Cp_hot * (inp.T_hot_in - tho) * 1000) tho
        (inp.T_cold_in +
          inp.m_dot_hot * inp.Cp_hot * (inp.T_hot_in - tho) * 1000 /
            (inp.m_dot_cold * inp.Cp_cold * 1000)))) ∧
    (∀ tco : ℝ, inp.T_hot_out = none → inp.T_cold_out = some tco →
      inp.m_dot_hot * inp.Cp_hot * 1000 ≠ 0 →
      inference inp = Except.ok (InferOut.resolved
        (inp.m_dot_cold * inp.Cp_cold * (tco - inp.T_cold_in) * 1000)
        (inp.T_hot_in -
          inp.m_dot_cold * inp.Cp_cold * (tco - inp.T_cold_in) * 1000 /
            (inp.m_dot_hot * inp.Cp_hot * 1000)) tco)) := by
  constructor
  · intro tho hh hc hden
    unfold inference
    rw [hh, hc]
    simp [pydiv, hden]
  · intro tco hh hc hden
    unfold inference
    rw [hh, hc]
    simp [pydiv, hden]

/-- Witness for C3: Scenario B (hot side known, cold outlet
inferred). -/
theorem inference_energy_balance_witness :
    inpHotKnown.T_hot_out = some 50 ∧ inpHotKnown.T_cold_out = none ∧
    inpHotKnown.m_dot_cold * inpHotKnown.Cp_cold * 1000 ≠ 0 ∧
    inference inpHotKnown = Except.ok (InferOut.resolved
      (inpHotKnown.m_dot_hot * inpHotKnown.Cp_hot *
        (inpHotKnown.T_hot_in - 50) * 1000) 50
      (inpHotKnown.T_cold_in +
        inpHotKnown.m_dot_hot * inpHotKnown.Cp_hot *
          (inpHotKnown.T_hot_in - 50) * 1000 /
          (inpHotKnown.m_dot_cold * inpHotKnown.Cp_cold * 1000))) :=
  ⟨rfl, rfl, by norm_num [inpHotKnown],
   (inference_energy_balance inpHotKnown).1 50 rfl rfl
     (by norm_num [inpHotKnown])⟩

/-- An input the widgets admit (`min_value=0.0` on the flow rate):
cold outlet unknown, cold mass flow rate zero. -/
noncomputable def inpZeroFlow : Inputs :=
  { m_dot_hot := 1, Cp_hot := 4.18, T_hot_in := 80, T_hot_out := some 50,
    m_dot_cold := 0, Cp_cold := 4.18, T_cold_in := 20, T_cold_out := none,
    U := 500, flow_type := FlowType.counter }

/-- Claim C4 fails on the code: with the cold outlet unknown and a
zero cold mass flow rate — both admitted by the input widgets — the
inference at line 51 divides by `m_dot_cold * Cp_cold * 1000 = 0` and
the engine raises an uncaught `ZeroDivisionError` instead of surfacing
a user-facing diagnostic. -/
theorem zero_flow_crashes :
    runEngine inpZeroFlow = Except.error Crash.zeroDivision := by
  have h : inference inpZeroFlow = Except.error Crash.zeroDivision := by
    unfold inference
    norm_num [inpZeroFlow, pydiv]
  unfold runEngine
  rw [h]

/-- A validated counter-flow input with `ΔT1 = 80 - 85 = -5 ≤ 0`. -/
noncomputable def inpBadDelta : Inputs :=
  { m_dot_hot := 1, Cp_hot := 4.18, T_hot_in := 80, T_hot_out := some 50,
    m_dot_cold := 1, Cp_cold := 4.18, T_cold_in := 20, T_cold_out := some 85,
    U := 500, flow_type := FlowType.counter }

/-- Claim C5 fails as stated: on a validated input with `ΔT1 ≤ 0` the
engine does emit the InvalidTemperatureDifference diagnostic and marks
LMTD and area undefined, but the temperature profile is *not*
withheld — the full 100-point profile is still computed and
displayed. -/
theorem invalid_delta_profile_still_shown :
    ∃ out mtr, runEngine inpBadDelta = Except.ok out ∧
      Msg.invalidDeltaT ∈ out.messages ∧ out.displayed = some mtr ∧
      mtr.LMTD = none ∧ mtr.A = none ∧ mtr.profile.length = 100 := by
  have hres : runEngine inpBadDelta = afterDuty inpBadDelta 50 85 := by
    unfold runEngine inference
    norm_num [inpBadDelta]
  have hv1 : ¬ (50:ℝ) ≥ inpBadDelta.T_hot_in := by norm_num [inpBadDelta]
  have hv2 : ¬ (85:ℝ) ≤ inpBadDelta.T_cold_in := by norm_num [inpBadDelta]
  have hd : deltas inpBadDelta.flow_type inpBadDelta.T_hot_in 50
      inpBadDelta.T_cold_in 85 = (-5, 30) := by
    norm_num [deltas, inpBadDelta]
  have hneg : (-5:ℝ) ≤ 0 ∨ (30:ℝ) ≤ 0 := by norm_num
  rw [hres, afterDuty_valid hv1 hv2]
  refine ⟨_, _, rfl, ?_, rfl, ?_, ?_, ?_⟩
  · simp [hd, lmtdStage_invalid hneg]
  · simp [hd, lmtdStage_invalid hneg]
  · simp [hd, lmtdStage_invalid hneg, areaVal]
  · show (profileStage inpBadDelta.flow_type inpBadDelta.T_hot_in 50
      inpBadDelta.T_cold_in 85).length = 100
    unfold profileStage
    rw [List.length_map, List.length_range]

/-- Claim C5 (amended): if `ΔT1 ≤ 0` or `ΔT2 ≤ 0` after validation,
the engine reports InvalidTemperatureDifference, the LMTD is undefined
and no area value is computed (both are `NaN` markers, never default
numbers); the temperature profile, which depends only on the already
validated temperatures, is still computed and displayed. -/
theorem invalid_delta_withholds_lmtd_area (inp : Inputs) (tho tco d1 d2 : ℝ)
    (hd : deltas inp.flow_type inp.T_hot_in tho inp.T_cold_in tco = (d1, d2))
    (hv1 : ¬ tho ≥ inp.T_hot_in) (hv2 : ¬ tco ≤ inp.T_cold_in)
    (hneg : d1 ≤ 0 ∨ d2 ≤ 0) :
    ∃ out mtr, afterDuty inp tho tco = Except.ok out ∧
      out.messages = [Msg.invalidDeltaT] ∧ out.displayed = some mtr ∧
      mtr.LMTD = none ∧ mtr.A = none ∧
      mtr.profile = profileStage inp.flow_type inp.T_hot_in tho
        inp.T_cold_in tco := by
  rw [afterDuty_valid hv1 hv2]
  refine ⟨_, _, rfl, ?_, rfl, ?_, ?_, rfl⟩
  · simp [hd, lmtdStage_invalid hneg]
  · simp [hd, lmtdStage_invalid hneg]
  · simp [hd, lmtdStage_invalid hneg, areaVal]

/-- Witness for the amended C5 at the `ΔT1 = -5` input. -/
theorem invalid_delta_withholds_lmtd_area_witness :
    deltas inpBadDelta.flow_type inpBadDelta.T_hot_in 50
      inpBadDelta.T_cold_in 85 = (-5, 30) ∧
    ¬ (50:ℝ) ≥ inpBadDelta.T_hot_in ∧ ¬ (85:ℝ) ≤ inpBadDelta.T_cold_in ∧
    ((-5:ℝ) ≤ 0 ∨ (30:ℝ) ≤ 0) ∧
    (∃ out mtr, afterDuty inpBadDelta 50 85 = Except.ok out ∧
      out.messages = [Msg.invalidDeltaT] ∧ out.displayed = some mtr ∧
      mtr.LMTD = none ∧ mtr.A = none ∧
      mtr.profile = profileStage inpBadDelta.flow_type inpBadDelta.T_hot_in 50
        inpBadDelta.T_cold_in 85) :=
  ⟨by norm_num [deltas, inpBadDelta], by norm_num [inpBadDelta],
   by norm_num [inpBadDelta], by norm_num,
   invalid_delta_withholds_lmtd_area inpBadDelta 50 85 (-5) 30
     (by norm_num [deltas, inpBadDelta]) (by norm_num [inpBadDelta])
     (by norm_num [inpBadDelta]) (by norm_num)⟩

/-- Resolved input failing hot-side validation: hot outlet 85 ≥ inlet
80 (Scenario C). -/
noncomputable def inpBadHot : Inputs :=
  { m_dot_hot := 1, Cp_hot := 4.18, T_hot_in := 80, T_hot_out := some 85,
    m_dot_cold := 1, Cp_cold := 4.18, T_cold_in := 20, T_cold_out := some 45,
    U := 500, flow_type := FlowType.counter }

/-- Claim C6: once both outlets are resolved, the run ends without a
crash, the hot / cold InvalidTemperature diagnostics appear exactly
when the resolved hot outlet ≥ hot inlet, resp. the resolved cold
outlet ≤ cold inlet, and such a failure halts the pipeline: the
metric/plot block (duty, LMTD, area, profile) is reached iff
validation passed. -/
theorem invalid_temperature_halts (inp : Inputs) (Q tho tco : ℝ)
    (hres : inference inp = Except.ok (InferOut.resolved Q tho tco)) :
    ∃ out, runEngine inp = Except.ok out ∧
      (Msg.invalidHotOut ∈ out.messages ↔ tho ≥ inp.T_hot_in) ∧
      (Msg.invalidColdOut ∈ out.messages ↔ tco ≤ inp.T_cold_in) ∧
      (out.displayed = none ↔ (tho ≥ inp.T_hot_in ∨ tco ≤ inp.T_cold_in)) := by
  have hrw : runEngine inp = afterDuty inp tho tco := by
    unfold runEngine
    rw [hres]
  by_cases ha : tho ≥ inp.T_hot_in
  · rw [hrw, afterDuty_invalid (Or.inl ha)]
    by_cases hb : tco ≤ inp.T_cold_in
    · exact ⟨_, rfl, by simp [ha], by simp [ha, hb], by simp [ha]⟩
    · exact ⟨_, rfl, by simp [ha], by simp [ha, hb], by simp [ha]⟩
  · by_cases hb : tco ≤ inp.T_cold_in
    · rw [hrw, afterDuty_invalid (Or.inr hb)]
      exact ⟨_, rfl, by simp [ha, hb], by simp [hb], by simp [hb]⟩
    · rw [hrw, afterDuty_valid ha hb]
      refine ⟨_, rfl, ?_, ?_, ?_⟩
      · simp only [ha, iff_false]
        exact lmtd_msgs_no_temp.1
      · simp only [hb, iff_false]
        exact lmtd_msgs_no_temp.2
      · simp [ha, hb]

/-- Witness for C6 at Scenario C (hot outlet 85 ≥ inlet 80). -/
theorem invalid_temperature_halts_witness :
    inference inpBadHot = Except.ok (InferOut.resolved
      (min (1 * 4.18 * (80 - 85) * 1000) (1 * 4.18 * (45 - 20) * 1000))
      85 45) ∧
    (∃ out, runEngine inpBadHot = Except.ok out ∧
      (Msg.invalidHotOut ∈ out.messages ↔ (85:ℝ) ≥ inpBadHot.T_hot_in) ∧
      (Msg.invalidColdOut ∈ out.messages ↔ (45:ℝ) ≤ inpBadHot.T_cold_in) ∧
      (out.displayed = none ↔
        ((85:ℝ) ≥ inpBadHot.T_hot_in ∨ (45:ℝ) ≤ inpBadHot.T_cold_in))) :=
  ⟨by unfold inference; norm_num [inpBadHot],
   invalid_temperature_halts inpBadHot
     (min (1 * 4.18 * (80 - 85) * 1000) (1 * 4.18 * (45 - 20) * 1000)) 85 45
     (by unfold inference; norm_num [inpBadHot])⟩

/-- Scenario D: both outlets unknown. -/
noncomputable def inpNoOutlets : Inputs :=
  { m_dot_hot := 1, Cp_hot := 4.18, T_hot_in := 80, T_hot_out := none,
    m_dot_cold := 1, Cp_cold := 4.18, T_cold_in := 20, T_cold_out := none,
    U := 500, flow_type := FlowType.counter }

/-- Claim C7: with both outlet temperatures unknown the engine halts
with the InsufficientData diagnostic before any duty calculation: no
crash, no duty, no inference, no LMTD, no area, no profile — the
output is exactly the warning with nothing displayed. -/
theorem insufficient_data_halts (inp : Inputs)
    (hh : inp.T_hot_out = none) (hc : inp.T_cold_out = none) :
    runEngine inp =
      Except.ok { messages := [Msg.insufficientData], displayed := none } := by
  have h : inference inp = Except.ok InferOut.insufficient := by
    unfold inference
    rw [hh, hc]
  unfold runEngine
  rw [h]

/-- Witness for C7 at Scenario D. -/
theorem insufficient_data_halts_witness :
    inpNoOutlets.T_hot_out = none ∧ inpNoOutlets.T_cold_out = none ∧
    runEngine inpNoOutlets =
      Except.ok { messages := [Msg.insufficientData], displayed := none } :=
  ⟨rfl, rfl, insufficient_data_halts inpNoOutlets rfl rfl⟩

/-- Claim C8: the displayed area equals `Q / (U * LMTD)` exactly when
`U > 0` and the LMTD is defined; otherwise the area is undefined
(`NaN`), never silently substituted with a default numeric value. -/
theorem area_exactly (inp : Inputs) (tho tco : ℝ)
    (hv1 : ¬ tho ≥ inp.T_hot_in) (hv2 : ¬ tco ≤ inp.T_cold_in) :
    ∃ out mtr, afterDuty inp tho tco = Except.ok out ∧
      out.displayed = some mtr ∧
      (∀ l, mtr.LMTD = some l → 0 < inp.U →
        mtr.A = some (mtr.Q / (inp.U * l))) ∧
      ((mtr.LMTD = none ∨ ¬ 0 < inp.U) → mtr.A = none) := by
  rw [afterDuty_valid hv1 hv2]
  refine ⟨_, _, rfl, rfl, ?_, ?_⟩
  · intro l hl hU
    dsimp only at hl ⊢
    rw [hl]
    simp [areaVal, hU]
  · intro h
    dsimp only at h ⊢
    rcases h with h | h
    · rw [h]
      rfl
    · cases hL : (lmtdStage
          (deltas inp.flow_type inp.T_hot_in tho inp.T_cold_in tco).1
          (deltas inp.flow_type inp.T_hot_in tho inp.T_cold_in tco).2).1 with
      | none => rfl
      | some l => simp [areaVal, h]

/-- Witness for C8 at Scenario A. -/
theorem area_exactly_witness :
    ¬ (50:ℝ) ≥ inpA.T_hot_in ∧ ¬ (45:ℝ) ≤ inpA.T_cold_in ∧
    (∃ out mtr, afterDuty inpA 50 45 = Except.ok out ∧
      out.displayed = some mtr ∧
      (∀ l, mtr.LMTD = some l → 0 < inpA.U →
        mtr.A = some (mtr.Q / (inpA.U * l))) ∧
      ((mtr.LMTD = none ∨ ¬ 0 < inpA.U) → mtr.A = none)) :=
  ⟨by norm_num [inpA], by norm_num [inpA],
   area_exactly inpA 50 45 (by norm_num [inpA]) (by norm_num [inpA])⟩

/-- Claim C9: on a validated input with both driving differences
positive, the displayed LMTD lies strictly between `min ΔT1 ΔT2` and
`max ΔT1 ΔT2` when `ΔT1 ≠ ΔT2`, and equals `ΔT1` exactly when
`ΔT1 = ΔT2`. -/
theorem lmtd_strictly_between (inp : Inputs) (tho tco d1 d2 : ℝ)
    (hd : deltas inp.flow_type inp.T_hot_in tho inp.T_cold_in tco = (d1, d2))
    (hv1 : ¬ tho ≥ inp.T_hot_in) (hv2 : ¬ tco ≤ inp.T_cold_in)
    (h1 : 0 < d1) (h2 : 0 < d2) :
    ∃ out mtr l, afterDuty inp tho tco = Except.ok out ∧
      out.displayed = some mtr ∧ mtr.LMTD = some l ∧
      (d1 ≠ d2 → min d1 d2 < l ∧ l < max d1 d2) ∧
      (d1 = d2 → l = d1) := by
  rw [afterDuty_valid hv1 hv2]
  by_cases heq : d1 = d2
  · refine ⟨_, _, d1, rfl, rfl, ?_, fun hne => absurd heq hne, fun _ => rfl⟩
    simp [hd, lmtdStage_eq h1 h2 heq]
  · refine ⟨_, _, (d1 - d2) / Real.log (d1 / d2), rfl, rfl, ?_, ?_,
      fun h => absurd h heq⟩
    · simp [hd, lmtdStage_ne h1 h2 heq]
    · intro _
      rcases lt_or_gt_of_ne heq with hlt | hgt
      · have hinv : Real.log (d1 / d2) = - Real.log (d2 / d1) := by
          rw [show d1 / d2 = (d2 / d1)⁻¹ by rw [inv_div], Real.log_inv]
        have hsym : (d1 - d2) / Real.log (d1 / d2)
            = (d2 - d1) / Real.log (d2 / d1) := by
          rw [hinv, div_neg, ← neg_div, neg_sub]
        have hb := logMean_between h1 hlt
        rw [hsym, min_eq_left (le_of_lt hlt), max_eq_right (le_of_lt hlt)]
        exact hb
      · have hb := logMean_between h2 hgt
        rw [min_eq_right (le_of_lt hgt), max_eq_left (le_of_lt hgt)]
        exact hb

/-- Witness for C9 at Scenario A: `ΔT1 = 35 ≠ 30 = ΔT2`. -/
theorem lmtd_strictly_between_witness :
    deltas inpA.flow_type inpA.T_hot_in 50 inpA.T_cold_in 45 = (35, 30) ∧
    ¬ (50:ℝ) ≥ inpA.T_hot_in ∧ ¬ (45:ℝ) ≤ inpA.T_cold_in ∧
    (0:ℝ) < 35 ∧ (0:ℝ) < 30 ∧
    (∃ out mtr l, afterDuty inpA 50 45 = Except.ok out ∧
      out.displayed = some mtr ∧ mtr.LMTD = some l ∧
      ((35:ℝ) ≠ 30 → min (35:ℝ) 30 < l ∧ l < max (35:ℝ) 30) ∧
      ((35:ℝ) = 30 → l = 35)) :=
  ⟨by norm_num [deltas, inpA], by norm_num [inpA], by norm_num [inpA],
   by norm_num, by norm_num,
   lmtd_strictly_between inpA 50 45 35 30 (by norm_num [deltas, inpA])
     (by norm_num [inpA]) (by norm_num [inpA]) (by norm_num) (by norm_num)⟩

/-- Claim C10: the temperature profile is a pure function of the
validated inputs, consisting of exactly 100 evenly spaced positions
`x = i/99 ∈ [0,1]`; at each `x` the hot temperature is
`Thi - (Thi - Tho)·x` for both arrangements, and the cold temperature
is `Tco - (Tco - Tci)·(1 - x)` for counter-flow and
`Tci + (Tco - Tci)·x` for parallel-flow. -/
theorem profile_samples (ft : FlowType) (Thi Tho Tci Tco : ℝ) :
    (profileStage ft Thi Tho Tci Tco).length = 100 ∧
    ∀ i : ℕ, i < 100 →
      (profileStage ft Thi Tho Tci Tco)[i]? =
        some ((i : ℝ) / 99, Thi - (Thi - Tho) * ((i : ℝ) / 99),
          match ft with
          | FlowType.counter => Tco - (Tco - Tci) * (1 - (i : ℝ) / 99)
          | FlowType.parallel => Tci + (Tco - Tci) * ((i : ℝ) / 99)) := by
  constructor
  · unfold profileStage
    rw [List.length_map, List.length_range]
  · intro i hi
    cases ft <;>
      simp [profileStage, List.getElem?_map, List.getElem?_range, hi]

/-- Witness for C10 at the Scenario A temperatures, sample `i = 0`. -/
theorem profile_samples_witness :
    (profileStage FlowType.counter 80 50 20 45).length = 100 ∧
    (0:ℕ) < 100 ∧
    (profileStage FlowType.counter 80 50 20 45)[0]? =
      some (((0:ℕ) : ℝ) / 99, 80 - (80 - 50) * (((0:ℕ) : ℝ) / 99),
        45 - (45 - 20) * (1 - ((0:ℕ) : ℝ) / 99)) :=
  ⟨(profile_samples FlowType.counter 80 50 20 45).1, by norm_num,
   (profile_samples FlowType.counter 80 50 20 45).2 0 (by norm_num)⟩

end SCHEM
